import Mathlib

/-!
Shallow embedding of the KOReader Store local-state subsystem
(src/services/cache.py, src/services/device_detection.py, and the
reconciliation logic of src/ui/main_window.py), together with theorems
settling the spec claims about it.

Modelling conventions:
* Wall-clock instants and durations are integers (seconds).  A Python
  `datetime`/`timedelta` comparison `now - last > duration` becomes the
  integer comparison `now - t > dur`; `timedelta.days` is floor division
  by 86400 (`Int.fdiv`), matching Python's floored `timedelta` normalisation.
* A JSON string field that is fed to `datetime.fromisoformat` is modelled by
  an inductive recording the three behaviours the code distinguishes:
  absent, present-but-unparsable (the parse raises), or parsed to an instant.
* Python `set` objects of strings are modelled as `Finset String`: the code
  only ever observes them through membership, insertion, discard and
  list round-trips, all of which are order-insensitive.
* File I/O is modelled by an explicit file state (missing / malformed /
  well-formed content) and an explicit `writeOk` flag standing for whether
  the `open`+`json.dump` in `save_cache` succeeds; every caught exception
  path in the Python code becomes a total-function branch here.
-/

namespace KoStore

/-- Result of reading the `last_updated` field of the cache envelope:
the key may be absent, present but rejected by `datetime.fromisoformat`
(the `except` branch of `is_cache_expired`), or parsed to an instant. -/
inductive TimeField
  | absent
  | unparsable
  | time (t : Int)
deriving DecidableEq

/-- Result of `item.get("updated_at", "")` as seen by `filter_items`:
`blank` covers the key being absent, `None`, or the empty string (all of
which make the Python guard `if updated_str:` falsy); `unparsable` is a
non-empty string that `datetime.fromisoformat` rejects; `time t` is a
parsed timestamp (seconds). -/
inductive UpdatedAt
  | blank
  | unparsable
  | time (t : Int)
deriving DecidableEq

/-- One catalog item as stored in the cache and consumed by the
reconciliation logic: `name` models `item.get("name")` (absent key or
`None` becomes `none`), `stars` models `item.get("stargazers_count", 0)`,
`updatedAt` models the `updated_at` field. -/
structure CatalogItem where
  name : Option String
  stars : Int
  updatedAt : UpdatedAt
deriving DecidableEq

/-- The in-memory `self.cache_data` dictionary of `CacheService`:
two catalog collections, the favorites set, and the `last_updated` stamp. -/
structure CacheData where
  plugins : List CatalogItem
  patches : List CatalogItem
  favorites : Finset String
  last_updated : TimeField
deriving DecidableEq

/-- The empty dictionary `{}` that `CacheService` resets to: every
`get` on it returns the default (empty lists, empty set, no timestamp). -/
def emptyCache : CacheData :=
  { plugins := [], patches := [], favorites := ∅, last_updated := .absent }

/-- CacheService.is_cache_expired (src/services/cache.py:76-91):
returns true when `last_updated` is absent from the dictionary, true when
`datetime.fromisoformat` raises, and otherwise compares
`datetime.now() - last_updated > self.cache_duration` (strict). -/
def is_cache_expired (d : CacheData) (now dur : Int) : Bool :=
  match d.last_updated with
  | .absent => true
  | .unparsable => true
  | .time t => now - t > dur

/-- On-disk state of the cache file as `load_cache` can observe it:
no file, a file whose content `json.load` rejects (or any other raised
exception), or a well-formed envelope. -/
inductive FileState
  | missing
  | malformed
  | content (env : CacheData)
deriving DecidableEq

/-- CacheService.load_cache (src/services/cache.py:25-53): missing file or
any exception yields the empty dictionary and `False`; a loaded envelope
that `is_cache_expired` rejects is cleared and yields `False`; otherwise
the envelope is kept and the result is `True`. -/
def load_cache (fs : FileState) (now dur : Int) : CacheData × Bool :=
  match fs with
  | .missing => (emptyCache, false)
  | .malformed => (emptyCache, false)
  | .content env =>
    if is_cache_expired env now dur then (emptyCache, false) else (env, true)

/-- An envelope with the given `last_updated` stamp; the catalog and
favorites content is irrelevant to expiry. -/
def envAt (t : TimeField) : CacheData :=
  { emptyCache with last_updated := t }

/-- C1 counterexample: the claim says an envelope stamped exactly at
`now − duration` is expired, but `is_cache_expired` uses a strict
comparison, so at `now = 100`, `duration = 10` the envelope stamped `90`
(which is exactly `now − duration`) is reported as NOT expired. -/
theorem is_cache_expired_boundary_counterexample :
    (90 : Int) = 100 - 10 ∧ is_cache_expired (envAt (.time 90)) 100 10 = false := by
  constructor
  · decide
  · rfl

/-- C1 (amended): an envelope stamped exactly at `now − duration` is NOT
expired, one stamped at `now − duration + 1` is not expired either, and in
general a stamped envelope is expired exactly when its stamp is strictly
older than `now − duration`. -/
theorem is_cache_expired_boundary (now dur : Int) :
    is_cache_expired (envAt (.time (now - dur))) now dur = false ∧
    is_cache_expired (envAt (.time (now - dur + 1))) now dur = false ∧
    ∀ t, is_cache_expired (envAt (.time t)) now dur = decide (t < now - dur) := by
  refine ⟨?_, ?_, ?_⟩
  · simp [is_cache_expired, envAt]
  · simp [is_cache_expired, envAt]
    omega
  · intro t
    simp only [is_cache_expired, envAt]
    by_cases h : t < now - dur
    · simp [h]
      omega
    · simp [h]
      omega

/-- A `CacheService` session: the in-memory `self.cache_data` dictionary
together with the state of the backing file. -/
structure CacheState where
  data : CacheData
  file : FileState
deriving DecidableEq

/-- CacheService.save_cache (src/services/cache.py:55-74): the current
time is written into `self.cache_data['last_updated']` FIRST; only then is
the file opened and written.  `writeOk` stands for whether that
`open` + `json.dump` succeeds; on failure the exception is caught, `False`
is returned and the file keeps its previous state, but the in-memory
timestamp has already been advanced. -/
def save_cache (st : CacheState) (now : Int) (writeOk : Bool) : CacheState × Bool :=
  let d := { st.data with last_updated := .time now }
  if writeOk then ({ data := d, file := .content d }, true)
  else ({ data := d, file := st.file }, false)

/-- CacheService.get_favorites (src/services/cache.py:197-204):
`set(self.cache_data.get('favorites', []))`. -/
def get_favorites (d : CacheData) : Finset String :=
  d.favorites

/-- CacheService.set_favorites (src/services/cache.py:206-214):
`self.cache_data['favorites'] = list(favorites)`. -/
def set_favorites (d : CacheData) (favorites : Finset String) : CacheData :=
  { d with favorites := favorites }

/-- CacheService.add_favorite (src/services/cache.py:216-227):
read the set, `add` the name, store it back, then `save_cache`. -/
def add_favorite (st : CacheState) (name : String) (now : Int) (writeOk : Bool) :
    CacheState :=
  let favorites := insert name (get_favorites st.data)
  (save_cache { st with data := set_favorites st.data favorites } now writeOk).1

/-- CacheService.remove_favorite (src/services/cache.py:229-240):
read the set, `discard` the name, store it back, then `save_cache`. -/
def remove_favorite (st : CacheState) (name : String) (now : Int) (writeOk : Bool) :
    CacheState :=
  let favorites := (get_favorites st.data).erase name
  (save_cache { st with data := set_favorites st.data favorites } now writeOk).1

/-- The in-memory dictionary after `save_cache` is the old one with the
timestamp advanced to `now`, whether or not the write succeeded. -/
theorem save_cache_data (st : CacheState) (now : Int) (writeOk : Bool) :
    (save_cache st now writeOk).1.data = { st.data with last_updated := .time now } := by
  cases writeOk <;> rfl

/-- Modelled from the claim's words for C4 (also spec §4.1 `load()`): ok is
false with an empty envelope exactly on a missing file, malformed content,
or a stored timestamp older than the duration; in every other case the
stored envelope is returned with ok true.  This differs from
`load_cache` on envelopes whose timestamp is absent or unparsable. -/
def load_cache_claimed (fs : FileState) (now dur : Int) : CacheData × Bool :=
  match fs with
  | .missing => (emptyCache, false)
  | .malformed => (emptyCache, false)
  | .content env =>
    match env.last_updated with
    | .time t => if now - t > dur then (emptyCache, false) else (env, true)
    | _ => (env, true)

/-- A well-formed envelope that has a favorite but no timestamp. -/
def envNoStamp : CacheData :=
  { plugins := [], patches := [], favorites := {"a"}, last_updated := .absent }

/-- C4 counterexample: an envelope whose content is well-formed but whose
`last_updated` key is absent is neither a missing file, nor malformed, nor
stamped older than the duration, so the claim says it loads with ok true;
`load_cache` instead clears it and returns false. -/
theorem load_cache_counterexample :
    load_cache (.content envNoStamp) 1000 100 = (emptyCache, false) ∧
    load_cache_claimed (.content envNoStamp) 1000 100 = (envNoStamp, true) ∧
    envNoStamp ≠ emptyCache := by
  refine ⟨rfl, rfl, ?_⟩
  decide

/-- C4 (amended): `load_cache` returns ok false together with the empty
envelope exactly when the file is missing, its content is malformed, or the
stored envelope is expired (timestamp absent, unparsable, or strictly older
than the duration); otherwise it returns the stored envelope with ok true.
As a total function it models the fact that every exception is caught. -/
theorem load_cache_characterisation (fs : FileState) (now dur : Int) :
    (∀ env, fs = .content env → is_cache_expired env now dur = false →
      load_cache fs now dur = (env, true)) ∧
    (((load_cache fs now dur).2 = false ∧ (load_cache fs now dur).1 = emptyCache) ↔
      (fs = .missing ∨ fs = .malformed ∨
        ∃ env, fs = .content env ∧ is_cache_expired env now dur = true)) := by
  constructor
  · intro env henv hfresh
    subst henv
    simp [load_cache, hfresh]
  · cases fs with
    | missing => simp [load_cache]
    | malformed => simp [load_cache]
    | content env =>
      by_cases hexp : is_cache_expired env now dur = true
      · simp [load_cache, hexp]
      · have hfresh : is_cache_expired env now dur = false := by
          simpa using hexp
        simp [load_cache, hfresh]

/-- C4 witness: a fresh stored envelope loads back with ok true. -/
theorem load_cache_characterisation_witness :
    load_cache (.content (envAt (.time 95))) 100 10 = (envAt (.time 95), true) :=
  (load_cache_characterisation (.content (envAt (.time 95))) 100 10).1
    (envAt (.time 95)) rfl rfl

/-- C5: saving an envelope and loading it back within the expiry window
returns ok true and yields the very same plugin list, the same patch list
(hence the same counts), and the same favorites set. -/
theorem save_load_roundtrip (st : CacheState) (tSave tLoad dur : Int)
    (h : tLoad - tSave ≤ dur) :
    (save_cache st tSave true).2 = true ∧
    (load_cache (save_cache st tSave true).1.file tLoad dur).2 = true ∧
    (load_cache (save_cache st tSave true).1.file tLoad dur).1.plugins
      = st.data.plugins ∧
    (load_cache (save_cache st tSave true).1.file tLoad dur).1.patches
      = st.data.patches ∧
    get_favorites (load_cache (save_cache st tSave true).1.file tLoad dur).1
      = get_favorites st.data := by
  have hfresh : is_cache_expired { st.data with last_updated := .time tSave }
      tLoad dur = false := by
    simp [is_cache_expired]
    omega
  simp [save_cache, load_cache, hfresh, get_favorites]

/-- A concrete one-plugin envelope used to instantiate the round-trip. -/
def sampleState : CacheState :=
  { data := { plugins := [{ name := some "Foo", stars := 60, updatedAt := .time 0 }],
              patches := [],
              favorites := {"a", "b"},
              last_updated := .absent },
    file := .missing }

/-- C5 witness: the round-trip at a concrete envelope, save at time 0 and
load at time 100000 with the default four-week duration (2419200 s). -/
theorem save_load_roundtrip_witness :
    (load_cache (save_cache sampleState 0 true).1.file 100000 2419200).1.plugins
      = sampleState.data.plugins ∧
    get_favorites (load_cache (save_cache sampleState 0 true).1.file 100000 2419200).1
      = get_favorites sampleState.data := by
  have h := save_load_roundtrip sampleState 0 100000 2419200 (by decide)
  exact ⟨h.2.2.1, h.2.2.2.2⟩

/-- C6: adding the same favorite twice yields the same favorites set as
adding it once, and removing an absent favorite leaves the set unchanged
(each call also re-stamps and re-saves the envelope, which does not touch
the set). -/
theorem favorite_idempotence (st : CacheState) (x : String)
    (n1 n2 : Int) (w1 w2 : Bool) :
    get_favorites (add_favorite (add_favorite st x n1 w1) x n2 w2).data
      = get_favorites (add_favorite st x n1 w1).data ∧
    (x ∉ get_favorites st.data →
      get_favorites (remove_favorite st x n1 w1).data = get_favorites st.data) := by
  constructor
  · simp [add_favorite, save_cache_data, get_favorites, set_favorites]
  · intro hx
    have hx2 : x ∉ st.data.favorites := hx
    simp [remove_favorite, save_cache_data, get_favorites, set_favorites,
      Finset.erase_eq_of_not_mem hx2]

/-- C6 witness: both parts at a concrete state whose favorites set is
`{"a"}` — double-adding `"b"` equals single-adding it, and removing the
absent `"b"` keeps the set `{"a"}`. -/
theorem favorite_idempotence_witness :
    get_favorites (add_favorite (add_favorite sampleState "c" 1 true) "c" 2 false).data
      = get_favorites (add_favorite sampleState "c" 1 true).data ∧
    get_favorites (remove_favorite sampleState "c" 1 true).data
      = get_favorites sampleState.data := by
  have h := favorite_idempotence sampleState "c" 1 2 true false
  exact ⟨h.1, h.2 (by decide)⟩

/-- C9: whenever the persisted cache is malformed or holds an expired
envelope, `load_cache` resets the dictionary, so `get_favorites` afterwards
is the empty set — expiry and corruption discard the persisted favorites
together with the catalog data. -/
theorem load_discards_favorites (fs : FileState) (now dur : Int)
    (h : fs = .malformed ∨
      ∃ env, fs = .content env ∧ is_cache_expired env now dur = true) :
    get_favorites (load_cache fs now dur).1 = ∅ := by
  rcases h with h | ⟨env, henv, hexp⟩
  · subst h
    rfl
  · subst henv
    simp [load_cache, hexp, get_favorites, emptyCache]

/-- C9 witness: an envelope carrying favorite `"a"` but stamped 20 units
before `now` with duration 10 is expired, and loading it leaves the
favorites set empty. -/
theorem load_discards_favorites_witness :
    get_favorites (load_cache (.content { envNoStamp with last_updated := .time 80 })
      100 10).1 = ∅ :=
  load_discards_favorites (.content { envNoStamp with last_updated := .time 80 })
    100 10 (Or.inr ⟨_, rfl, by decide⟩)

/-- C10: `save_cache` stamps the in-memory envelope with the current time
before attempting the file write, so on a failed write it returns false and
leaves the file as it was, yet the in-memory timestamp has advanced to
`now` — an immediate `is_cache_expired` check (any non-negative duration)
now reports the cache as fresh although nothing was persisted. -/
theorem save_cache_failure_still_stamps (st : CacheState) (now dur : Int)
    (h : 0 ≤ dur) :
    (save_cache st now false).2 = false ∧
    (save_cache st now false).1.file = st.file ∧
    (save_cache st now false).1.data.last_updated = .time now ∧
    is_cache_expired (save_cache st now false).1.data now dur = false := by
  refine ⟨rfl, rfl, rfl, ?_⟩
  simp [save_cache, is_cache_expired]
  omega

/-- C10 witness: a failed save on the sample session at time 100 with the
default four-week duration leaves the file missing but the in-memory
envelope stamped and fresh. -/
theorem save_cache_failure_still_stamps_witness :
    (save_cache sampleState 100 false).1.file = FileState.missing ∧
    is_cache_expired (save_cache sampleState 100 false).1.data 100 2419200 = false := by
  have h := save_cache_failure_still_stamps sampleState 100 2419200 (by decide)
  exact ⟨h.2.1, h.2.2.2⟩

/-- The category selector of `filter_items` (src/ui/main_window.py:713-725):
the combo box offers an all-categories choice, a top-rated choice and a
recently-updated choice. -/
inductive Category
  | all
  | topRated
  | recentlyUpdated
deriving DecidableEq

/-- The category-filter step of KOReaderStore.filter_items
(src/ui/main_window.py:713-725), deciding whether one item survives the
category filter.  Top rated: `continue` when `stargazers_count < 50`.
Recently updated: when `updated_at` is absent/None/empty the guard
`if updated_str:` is falsy and the whole check is skipped (the item is
kept); a non-empty unparsable value raises inside the `try` and the
`except` discards the item; a parsed value is discarded when
`(now - updated).days > 30`, where `.days` floors (Int.fdiv). -/
def category_keeps (category : Category) (stars : Int) (u : UpdatedAt) (now : Int) :
    Bool :=
  match category with
  | .all => true
  | .topRated => !(decide (stars < 50))
  | .recentlyUpdated =>
    match u with
    | .blank => true
    | .unparsable => false
    | .time t => !(decide ((now - t).fdiv 86400 > 30))

/-- Modelled from the claim's words for C2: keep an item under "recently
updated" exactly when its timestamp parses and is within 30 days of now;
items with missing or unparsable timestamps are discarded (fail closed). -/
def recently_updated_claimed (u : UpdatedAt) (now : Int) : Bool :=
  match u with
  | .time t => decide ((now - t).fdiv 86400 ≤ 30)
  | _ => false

/-- C2 counterexample: an item whose `updated_at` is missing (or empty) is
KEPT by the code's "recently updated" filter, while the claim says every
item with a missing timestamp is discarded — the filter fails open for
absent timestamps, not closed. -/
theorem recently_updated_counterexample :
    category_keeps .recentlyUpdated 0 .blank 0 = true ∧
    recently_updated_claimed .blank 0 = false :=
  ⟨rfl, rfl⟩

/-- C2 (amended): under "recently updated" an item is kept exactly when its
timestamp is missing/empty (the check is skipped, failing open) or parses
to within 30 days of now; an item with a present-but-unparsable timestamp
is discarded. -/
theorem recently_updated_characterisation (stars now : Int) (u : UpdatedAt) :
    category_keeps .recentlyUpdated stars u now = true ↔
      (u = .blank ∨ ∃ t, u = .time t ∧ (now - t).fdiv 86400 ≤ 30) := by
  cases u with
  | blank => simp [category_keeps]
  | unparsable => simp [category_keeps]
  | time t =>
    simp [category_keeps]

/-- C2 witness: a parsed timestamp four days old is kept. -/
theorem recently_updated_characterisation_witness :
    category_keeps .recentlyUpdated 0 (.time 86400) 432000 = true :=
  (recently_updated_characterisation 0 432000 (.time 86400)).mpr
    (Or.inr ⟨86400, rfl, by decide⟩)

/-- Boolean test for whether the first list of characters is an initial
segment of the second. -/
def isPrefixOfList : List Char → List Char → Bool
  | [], _ => true
  | _ :: _, [] => false
  | a :: as, b :: bs => a == b && isPrefixOfList as bs

/-- Boolean test for whether the first list of characters is a final
segment of the second. -/
def isSuffixOfList (pat s : List Char) : Bool :=
  isPrefixOfList pat.reverse s.reverse

/-- Left-to-right, non-overlapping removal of every occurrence of `pat`,
the semantics of Python `str.replace(pat, "")`.  The fuel argument (always
called with the length of the string, which bounds the number of steps)
keeps the recursion structural. -/
def removeAllFuel (pat : List Char) : Nat → List Char → List Char
  | _, [] => []
  | 0, s => s
  | fuel + 1, c :: cs =>
    if (pat.length != 0) && isPrefixOfList pat (c :: cs) then
      removeAllFuel pat fuel (cs.drop (pat.length - 1))
    else
      c :: removeAllFuel pat fuel cs

/-- Python `s.replace(pat, "")` on character lists. -/
def removeAll (pat s : List Char) : List Char :=
  removeAllFuel pat s.length s

/-- The lookup key fallback of KOReaderStore.display_items
(src/ui/main_window.py:668): `clean_name = item_name.replace(".koplugin", "")`
— note Python's `replace` removes EVERY occurrence, not only a suffix. -/
def clean_name (item_name : String) : String :=
  ⟨removeAll ".koplugin".data item_name.data⟩

/-- Modelled from the claim's words for C3: the fallback key is the name
with the ".koplugin" SUFFIX stripped (a no-op on names not ending in it). -/
def strip_suffix_claimed (item_name : String) : String :=
  if isSuffixOfList ".koplugin".data item_name.data then
    ⟨item_name.data.take (item_name.data.length - 9)⟩
  else item_name

/-- One record of the externally computed update map
(`self.cached_updates`), as read by display_items:
`update_info.get("installed_version", "Unknown")` — the field may be
absent, which the code defaults to the "Unknown" sentinel. -/
structure UpdateRec where
  installed_version : Option String
deriving DecidableEq

/-- The update-badge derivation of KOReaderStore.display_items
(src/ui/main_window.py:655-672): false when not installed; when installed,
the update map is consulted by the exact item name, and only when that key
is absent by `clean_name`; the matched record yields an update only when
its installed-version (defaulted to "Unknown" when absent) is not the
"Unknown" sentinel. -/
def has_update (installed : Bool) (item_name : String)
    (updates : String → Option UpdateRec) : Bool :=
  if installed then
    match updates item_name with
    | some update_info =>
      (update_info.installed_version.getD "Unknown") != "Unknown"
    | none =>
      match updates (clean_name item_name) with
      | some update_info =>
        (update_info.installed_version.getD "Unknown") != "Unknown"
      | none => false
  else false

/-- Modelled from the claim's words for C3: identical to `has_update`
except that the fallback key strips ".koplugin" only as a suffix. -/
def has_update_claimed (installed : Bool) (item_name : String)
    (updates : String → Option UpdateRec) : Bool :=
  if installed then
    match updates item_name with
    | some update_info =>
      (update_info.installed_version.getD "Unknown") != "Unknown"
    | none =>
      match updates (strip_suffix_claimed item_name) with
      | some update_info =>
        (update_info.installed_version.getD "Unknown") != "Unknown"
      | none => false
  else false

/-- An update map holding a single record under the key "a.b". -/
def updatesCex : String → Option UpdateRec :=
  fun s => if s = "a.b" then some { installed_version := some "1.0" } else none

/-- C3 counterexample: for the installed item named "a.koplugin.b" (where
".koplugin" occurs in the middle, not as a suffix) the code's fallback key
is "a.b" — `replace` removed the infix — and it reports an update from a
record keyed "a.b"; under the claim's suffix-stripping reading no key
matches and no update may be reported. -/
theorem has_update_counterexample :
    has_update true ("a.koplugin.b") updatesCex = true ∧
    has_update_claimed true ("a.koplugin.b") updatesCex = false := by
  constructor
  · rfl
  · rfl

/-- C3 (amended): `has_update` is false whenever the item is not installed;
when installed, the update map is consulted first by the exact name and,
only if that key is absent, by the name with every occurrence of
".koplugin" removed (Python `replace`, which strips the suffix but also
removes infix occurrences); the result is true only when the matched
record's installed-version is not the "Unknown" sentinel, and an update map
all of whose records carry the "Unknown" installed-version never yields an
update. -/
theorem has_update_characterisation (item_name : String)
    (updates : String → Option UpdateRec) :
    has_update false item_name updates = false ∧
    (∀ r, updates item_name = some r →
      has_update true item_name updates
        = ((r.installed_version.getD "Unknown") != "Unknown")) ∧
    (updates item_name = none →
      ∀ r, updates (clean_name item_name) = some r →
        has_update true item_name updates
          = ((r.installed_version.getD "Unknown") != "Unknown")) ∧
    (updates item_name = none → updates (clean_name item_name) = none →
      has_update true item_name updates = false) ∧
    (∀ installed,
      (∀ k r, updates k = some r →
        r.installed_version.getD "Unknown" = "Unknown") →
      has_update installed item_name updates = false) := by
  refine ⟨rfl, ?_, ?_, ?_, ?_⟩
  · intro r hr
    simp [has_update, hr]
  · intro hnone r hr
    simp [has_update, hnone, hr]
  · intro hnone hclean
    simp [has_update, hnone, hclean]
  · intro installed hall
    cases installed with
    | false => rfl
    | true =>
      simp only [has_update]
      cases hname : updates item_name with
      | some r => simp [hall item_name r hname]
      | none =>
        cases hclean : updates (clean_name item_name) with
        | some r => simp [hall (clean_name item_name) r hclean]
        | none => simp

/-- An update map holding a single record under the key "Foo". -/
def updatesWit : String → Option UpdateRec :=
  fun s => if s = "Foo" then some { installed_version := some "0.9" } else none

/-- C3 witness: the suffix fallback in action — the installed item
"Foo.koplugin" has no exact-name record, matches the record keyed "Foo",
and its known installed-version yields an update. -/
theorem has_update_characterisation_witness :
    has_update true ("Foo.koplugin") updatesWit = true := by
  have h := (has_update_characterisation ("Foo.koplugin") updatesWit).2.2.1
    rfl { installed_version := some "0.9" } rfl
  simpa using h

/-- The three shapes DeviceDetection.detect_koreader_device can return
(the Python function returns `None`, a single path string, or the whole
list of paths). -/
inductive DetectResult
  | noDevice
  | single (p : String)
  | multiple (ps : List String)
deriving DecidableEq

/-- DeviceDetection.detect_koreader_device
(src/services/device_detection.py:141-166), as a function of the candidate
list produced by `get_koreader_paths` (the enumeration itself is platform
filesystem probing, which the claim quantifies over): an empty list yields
`None`, a singleton yields its only element, and two or more candidates are
returned whole for the caller to choose from. -/
def detect_koreader_device (possible_paths : List String) : DetectResult :=
  match possible_paths with
  | [] => .noDevice
  | [p] => .single p
  | ps => .multiple ps

/-- C7: `detect_koreader_device` returns no device on zero candidates, the
single path itself on exactly one, and the full candidate list on two or
more, never selecting one of them itself. -/
theorem detect_koreader_device_cases (possible_paths : List String) :
    (possible_paths = [] → detect_koreader_device possible_paths = .noDevice) ∧
    (∀ p, possible_paths = [p] →
      detect_koreader_device possible_paths = .single p) ∧
    (2 ≤ possible_paths.length →
      detect_koreader_device possible_paths = .multiple possible_paths) := by
  refine ⟨?_, ?_, ?_⟩
  · intro h
    subst h
    rfl
  · intro p h
    subst h
    rfl
  · intro h
    match possible_paths, h with
    | a :: b :: rest, _ => rfl

/-- C7 witness: all three cases at concrete candidate lists. -/
theorem detect_koreader_device_cases_witness :
    detect_koreader_device [] = .noDevice ∧
    detect_koreader_device ["/mnt/k/koreader"] = .single ("/mnt/k/koreader") ∧
    detect_koreader_device ["/mnt/k/koreader", "/opt/koreader"]
      = .multiple ["/mnt/k/koreader", "/opt/koreader"] :=
  ⟨(detect_koreader_device_cases []).1 rfl,
   (detect_koreader_device_cases ["/mnt/k/koreader"]).2.1 _ rfl,
   (detect_koreader_device_cases ["/mnt/k/koreader", "/opt/koreader"]).2.2
     (by decide)⟩

/-- A filesystem as DeviceDetection observes it: which paths exist
(`os.path.exists`) and, for a path whose open+read succeeds, the content
read (`none` models a raised read error). -/
structure DeviceFs where
  pathExists : String → Bool
  readFile : String → Option String

/-- Model of `os.path.join(a, b)` for the relative components the code
joins. -/
def joinPath (a b : String) : String :=
  a ++ "/" ++ b

/-- DeviceDetection.validate_koreader_installation
(src/services/device_detection.py:111-139): the path itself and all four
essential entries (koreader.sh, frontend, plugins, data) must exist. -/
def validate_koreader_installation (fs : DeviceFs) (path : String) : Bool :=
  fs.pathExists path &&
    (["koreader.sh", "frontend", "plugins", "data"].all fun item =>
      fs.pathExists (joinPath path item))

/-- The whitespace characters Python `str.strip()` removes by default. -/
def isPyWhitespace (c : Char) : Bool :=
  c == ' ' || c == '\t' || c == '\n' || c == '\r' || c == '\x0b' || c == '\x0c'

/-- Python `str.strip()`: drop leading and trailing whitespace. -/
def pyStrip (s : String) : String :=
  ⟨(((s.data.dropWhile isPyWhitespace).reverse.dropWhile isPyWhitespace).reverse)⟩

/-- The device-information record DeviceDetection.get_device_info builds:
a Python dict whose `plugins_exist` / `patches_exist` keys are only present
on some code paths, modelled as `Option Bool` (`none` = key absent). -/
structure DeviceInfo where
  path : String
  valid : Bool
  version : String
  platform : String
  plugins_exist : Option Bool
  patches_exist : Option Bool
deriving DecidableEq

/-- DeviceDetection.get_device_info
(src/services/device_detection.py:168-205): starts from a base record with
`valid = False` and `version = "Unknown"`; only when the installation
validates does it read the optional `git-rev` marker (keeping "Unknown"
when the file is absent or the read raises, stripping the content
otherwise) and add the `plugins_exist` / `patches_exist` keys. -/
def get_device_info (fs : DeviceFs) (system koreader_path : String) : DeviceInfo :=
  if validate_koreader_installation fs koreader_path then
    let version_file := joinPath koreader_path "git-rev"
    let version :=
      if fs.pathExists version_file then
        match fs.readFile version_file with
        | some content => pyStrip content
        | none => "Unknown"
      else "Unknown"
    { path := koreader_path, valid := true, version := version,
      platform := system,
      plugins_exist := some (fs.pathExists (joinPath koreader_path "plugins")),
      patches_exist := some (fs.pathExists (joinPath koreader_path "patches")) }
  else
    { path := koreader_path, valid := false, version := "Unknown",
      platform := system, plugins_exist := none, patches_exist := none }

/-- A filesystem on which nothing exists and every read fails. -/
def fsEmpty : DeviceFs :=
  { pathExists := fun _ => false, readFile := fun _ => none }

/-- C8 counterexample: on a path that does not validate, the returned
record does NOT contain the `plugins_exist` / `patches_exist` keys — the
claim that every result carries all five fields fails. -/
theorem get_device_info_counterexample :
    (get_device_info fsEmpty ("Linux") ("/x")).plugins_exist = none ∧
    (get_device_info fsEmpty ("Linux") ("/x")).patches_exist = none := by
  constructor
  · rfl
  · rfl

/-- C8 (amended): `get_device_info` never raises (it is total) and always
returns a record with the path, a validity flag and a version; only when
the path validates does the record also carry the `pluginsDirExists` /
`patchesDirExists` keys, with the version read best-effort from the
`git-rev` marker (stripped content when it exists and is readable, the
"Unknown" sentinel otherwise); when validation fails those two keys are
absent and the version stays "Unknown". -/
theorem get_device_info_characterisation (fs : DeviceFs)
    (system koreader_path : String) :
    (get_device_info fs system koreader_path).path = koreader_path ∧
    (get_device_info fs system koreader_path).platform = system ∧
    (get_device_info fs system koreader_path).valid
      = validate_koreader_installation fs koreader_path ∧
    (validate_koreader_installation fs koreader_path = true →
      (get_device_info fs system koreader_path).plugins_exist
        = some (fs.pathExists (joinPath koreader_path "plugins")) ∧
      (get_device_info fs system koreader_path).patches_exist
        = some (fs.pathExists (joinPath koreader_path "patches")) ∧
      (get_device_info fs system koreader_path).version
        = (if fs.pathExists (joinPath koreader_path "git-rev") then
            match fs.readFile (joinPath koreader_path "git-rev") with
            | some content => pyStrip content
            | none => "Unknown"
          else "Unknown")) ∧
    (validate_koreader_installation fs koreader_path = false →
      (get_device_info fs system koreader_path).plugins_exist = none ∧
      (get_device_info fs system koreader_path).patches_exist = none ∧
      (get_device_info fs system koreader_path).version = "Unknown") := by
  by_cases hv : validate_koreader_installation fs koreader_path = true
  · refine ⟨?_, ?_, ?_, ?_, ?_⟩ <;> simp [get_device_info, hv]
  · have hv2 : validate_koreader_installation fs koreader_path = false := by
      simpa using hv
    refine ⟨?_, ?_, ?_, ?_, ?_⟩ <;> simp [get_device_info, hv2]

/-- A filesystem holding a complete installation at /k whose git-rev file
reads "v2024.07\n". -/
def fsFull : DeviceFs :=
  { pathExists := fun p =>
      p == "/k" || p == "/k/koreader.sh" || p == "/k/frontend" ||
        p == "/k/plugins" || p == "/k/data" || p == "/k/git-rev",
    readFile := fun p => if p = "/k/git-rev" then some ("v2024.07\n") else none }

/-- C8 witness: on the complete installation the record is valid, carries
both directory-existence keys, and the version is the stripped marker
content. -/
theorem get_device_info_characterisation_witness :
    (get_device_info fsFull ("Linux") ("/k")).plugins_exist = some true ∧
    (get_device_info fsFull ("Linux") ("/k")).version = "v2024.07" := by
  have h := (get_device_info_characterisation fsFull ("Linux") ("/k")).2.2.2.1 rfl
  refine ⟨by rw [h.1]; rfl, by rw [h.2.2]; rfl⟩

end KoStore
